import Mathlib

/-
Verification development for the learning-timer session data store
(src/src/utils/enhancedStorage.ts).  The persistence medium (localStorage)
is modelled as a record holding the two keys the store uses; it is assumed
available and to accept every write (quota failures are outside the claims
under study).  JavaScript Date values are modelled by their epoch-millisecond
time, with none standing for an Invalid Date (NaN time).  Numeric session
durations are modelled as integers.
-/

namespace LearningTimer

set_option maxRecDepth 4000

/-- Severity of a validation issue; the source stores the string literals
error and warning in the type field. -/
inductive Severity
  | error
  | warning
deriving DecidableEq

/-- A validation issue as produced by validateSession and the CSV pipeline.
The untyped value payload carried by the source's objects is not modelled;
no behaviour depends on it. -/
structure ValidationError where
  type : Severity
  message : String
  row : Option Nat
  column : Option String
deriving DecidableEq

/-- True exactly for error-severity issues. -/
def ValidationError.isError (e : ValidationError) : Bool :=
  match e.type with
  | Severity.error => true
  | Severity.warning => false

/-- A JavaScript Date reduced to its epoch-millisecond time: some ms is a
valid instant, none is an Invalid Date (getTime() yields NaN). -/
abbrev JSDate := Option Int

/-- A session record (src/src/types).  id and subject are strings and
completed is a boolean by the type; the dynamic type checks of
validateSession on those fields can therefore never fire in the model.
endTime distinguishes absence (none) from a present but invalid date
(some none). -/
structure Session where
  id : String
  subject : String
  duration : Int
  startTime : JSDate
  endTime : Option JSDate
  completed : Bool
deriving DecidableEq

/-- Metadata of the persisted envelope.  lastModified is an epoch-ms time;
dataChecksum distinguishes an absent field (none) from a stored string. -/
structure StorageMetadata where
  version : String
  lastModified : Int
  sessionCount : Nat
  dataChecksum : Option String
deriving DecidableEq

/-- The persisted envelope under the current-format key. -/
structure StorageData where
  metadata : StorageMetadata
  sessions : List Session
deriving DecidableEq

/-- The persistence medium: the two localStorage keys used by the store,
each either absent or holding (the parse of) its value.  The legacy key
holds a bare array of session-shaped records. -/
structure StorageState where
  enhanced : Option StorageData
  legacy : Option (List Session)
deriving DecidableEq

/-- A mutation performed on the persistence medium.  Operations return the
list of mutations they perform, in order, so that intermediate states are
observable. -/
inductive StoreEvent
  | removeLegacy
  | writeEnhanced (d : StorageData)
deriving DecidableEq

/-- Apply one mutation to the medium. -/
def applyEvent (st : StorageState) : StoreEvent → StorageState
  | StoreEvent.removeLegacy => { st with legacy := none }
  | StoreEvent.writeEnhanced d => { st with enhanced := some d }

/-- Replay a list of mutations from a starting state. -/
def runEvents (st : StorageState) (evs : List StoreEvent) : StorageState :=
  evs.foldl applyEvent st

def CURRENT_VERSION : String := "1.0.0"

/-- String.prototype.trim: strip leading and trailing whitespace.  Defined
over the character list so that it evaluates by kernel reduction. -/
def jsTrim (s : String) : String :=
  String.mk (((s.data.dropWhile Char.isWhitespace).reverse.dropWhile
    Char.isWhitespace).reverse)

/-- String.prototype.toLowerCase, for the ASCII range the claims use. -/
def jsToLower (s : String) : String :=
  String.mk (s.data.map Char.toLower)

/-! ### Checksum (generateChecksum) -/

/-- UTF-16 code units of a character, as charCodeAt enumerates them. -/
def utf16Units (c : Char) : List Nat :=
  let n := c.toNat
  if n < 65536 then [n]
  else [55296 + (n - 65536) / 1024, 56320 + (n - 65536) % 1024]

/-- Wrap an integer to the signed 32-bit range, as the JS bitwise
operations do. -/
def wrap32 (x : Int) : Int := (x + 2147483648) % 4294967296 - 2147483648

/-- One step of the rolling hash: hash = ((hash shifted left by 5) - hash)
+ charCode, wrapped to 32 bits.  The shift itself wraps first. -/
def hashStep (h : Int) (c : Nat) : Int :=
  wrap32 (wrap32 (h * 32) - h + (c : Int))

/-- Digit character for base 36, as Number.prototype.toString(36) uses. -/
def base36Char (n : Nat) : Char :=
  if n < 10 then Char.ofNat (48 + n) else Char.ofNat (87 + n)

/-- Fuelled base-36 digit accumulator (the fuel bounds the digit count). -/
def natToBase36Go : Nat → Nat → List Char → List Char
  | 0, _, acc => acc
  | fuel + 1, n, acc =>
    if n = 0 then acc else natToBase36Go fuel (n / 36) (base36Char (n % 36) :: acc)

/-- Base-36 rendering of a natural number, as toString(36). -/
def natToBase36 (n : Nat) : String :=
  if n = 0 then "0" else String.mk (natToBase36Go (n + 1) n [])

/-- generateChecksum: rolling 32-bit hash over the UTF-16 code units of the
string, absolute value rendered in base 36. -/
def generateChecksum (data : String) : String :=
  natToBase36 (Int.natAbs ((data.data.flatMap utf16Units).foldl hashStep 0))

/-! ### JSON serialization of the session array (JSON.stringify) -/

/-- Civil date from days since the Unix epoch (year, month, day). -/
def civilFromDays (z0 : Int) : Int × Int × Int :=
  let z := z0 + 719468
  let era := Int.fdiv z 146097
  let doe := z - era * 146097
  let yoe := Int.fdiv (doe - Int.fdiv doe 1460 + Int.fdiv doe 36524 - Int.fdiv doe 146096) 365
  let y := yoe + era * 400
  let doy := doe - (365 * yoe + Int.fdiv yoe 4 - Int.fdiv yoe 100)
  let mp := Int.fdiv (5 * doy + 2) 153
  let d := doy - Int.fdiv (153 * mp + 2) 5 + 1
  let m := mp + (if mp < 10 then 3 else -9)
  (y + (if m ≤ 2 then 1 else 0), m, d)

def pad2 (n : Nat) : String := if n < 10 then "0" ++ toString n else toString n

def pad3 (n : Nat) : String :=
  if n < 10 then "00" ++ toString n
  else if n < 100 then "0" ++ toString n
  else toString n

def pad4 (n : Nat) : String :=
  if n < 10 then "000" ++ toString n
  else if n < 100 then "00" ++ toString n
  else if n < 1000 then "0" ++ toString n
  else toString n

/-- Date.prototype.toISOString on a valid instant.  Years outside 0..9999
are rendered with a plain sign rather than the expanded-year form; no
session in the claims leaves the ordinary range. -/
def toISOString (ms : Int) : String :=
  let day := Int.fdiv ms 86400000
  let msod := (ms - day * 86400000).toNat
  let ymd := civilFromDays day
  let yearText := if ymd.1 < 0 then "-" ++ pad4 (-ymd.1).toNat else pad4 ymd.1.toNat
  yearText ++ "-" ++ pad2 ymd.2.1.toNat ++ "-" ++ pad2 ymd.2.2.toNat ++ "T" ++
    pad2 (msod / 3600000) ++ ":" ++ pad2 (msod / 60000 % 60) ++ ":" ++
    pad2 (msod / 1000 % 60) ++ "." ++ pad3 (msod % 1000) ++ "Z"

def hexDigit (n : Nat) : Char :=
  if n < 10 then Char.ofNat (48 + n) else Char.ofNat (87 + n)

/-- Escaping of one character inside a JSON string, as JSON.stringify. -/
def jsonEscapeChar (c : Char) : String :=
  if c = Char.ofNat 34 then "\\\""
  else if c = Char.ofNat 92 then "\\\\"
  else if c = Char.ofNat 8 then "\\b"
  else if c = Char.ofNat 9 then "\\t"
  else if c = Char.ofNat 10 then "\\n"
  else if c = Char.ofNat 12 then "\\f"
  else if c = Char.ofNat 13 then "\\r"
  else if c.toNat < 32 then "\\u00" ++ String.mk [hexDigit (c.toNat / 16), hexDigit (c.toNat % 16)]
  else String.mk [c]

/-- A JSON string literal for s. -/
def jsonString (s : String) : String :=
  "\"" ++ String.join (s.data.map jsonEscapeChar) ++ "\""

/-- A Date serializes (via toJSON) to its ISO string, an Invalid Date to
null. -/
def serializeDate : JSDate → String
  | none => "null"
  | some ms => "\"" ++ toISOString ms ++ "\""

/-- JSON.stringify of one session object, keys in declaration order; an
undefined endTime is omitted entirely. -/
def serializeSession (s : Session) : String :=
  "\x7b" ++ "\"id\":" ++ jsonString s.id ++ ",\"subject\":" ++ jsonString s.subject ++
    ",\"duration\":" ++ toString s.duration ++ ",\"startTime\":" ++ serializeDate s.startTime ++
    (match s.endTime with
     | none => ""
     | some d => ",\"endTime\":" ++ serializeDate d) ++
    ",\"completed\":" ++ (if s.completed then "true" else "false") ++ "\x7d"

/-- JSON.stringify of the session array: the string the checksum is taken
over, both at save time and when the integrity of a loaded envelope is
rechecked. -/
def serializeSessions (l : List Session) : String :=
  "[" ++ String.intercalate "," (l.map serializeSession) ++ "]"

/-! ### validateSession -/

/-- Message text row-context, the prefix template literal of the source. -/
def rowPre : Option Nat → String
  | none => ""
  | some i => "Row " ++ toString i ++ ": "

/-- Issues for the id field.  An empty string is falsy in JS, so it counts
as missing; the non-string branch of the source cannot fire on a typed
Session. -/
def idIssues (s : Session) (pre : String) (r : Option Nat) (allowMissingId : Bool) :
    List ValidationError :=
  if allowMissingId = false ∧ s.id = "" then
    [{ type := Severity.error, message := pre ++ "Missing or invalid session ID",
       row := r, column := some "id" }]
  else []

/-- Issues for the subject field: empty or whitespace-only after trimming
is an error (an empty subject is falsy and trims to the empty string, so
both source disjuncts collapse to the trim test). -/
def subjectIssues (s : Session) (pre : String) (r : Option Nat) : List ValidationError :=
  if jsTrim s.subject = "" then
    [{ type := Severity.error, message := pre ++ "Missing or empty subject",
       row := r, column := some "subject" }]
  else []

/-- Issues for the duration field: non-positive values are errors. -/
def durationIssues (s : Session) (pre : String) (r : Option Nat) : List ValidationError :=
  if s.duration ≤ 0 then
    [{ type := Severity.error, message := pre ++ "Duration must be a positive number",
       row := r, column := some "duration" }]
  else []

/-- Issues for the start time: an Invalid Date is an error. -/
def startIssues (s : Session) (pre : String) (r : Option Nat) : List ValidationError :=
  if s.startTime = none then
    [{ type := Severity.error, message := pre ++ "Invalid start time format",
       row := r, column := some "startTime" }]
  else []

/-- Issues for the end time, when present: an Invalid Date is an error;
otherwise the source warns when startTime.getTime() >= endTime.getTime().
When startTime is itself invalid its NaN time makes that comparison false,
so no ordering warning is emitted. -/
def endIssues (s : Session) (pre : String) (r : Option Nat) : List ValidationError :=
  match s.endTime with
  | none => []
  | some none =>
    [{ type := Severity.error, message := pre ++ "Invalid end time format",
       row := r, column := some "endTime" }]
  | some (some et) =>
    match s.startTime with
    | some st =>
      if et ≤ st then
        [{ type := Severity.warning, message := pre ++ "End time should be after start time",
           row := r, column := some "endTime" }]
      else []
    | none => []

/-- validateSession: the issues accumulated by the source's sequential
pushes, in push order.  The completed field is a boolean by the Session
type, so its dynamic type check never fires. -/
def validateSession (s : Session) (rowIndex : Option Nat) (allowMissingId : Bool) :
    List ValidationError :=
  let pre := rowPre rowIndex
  idIssues s pre rowIndex allowMissingId ++ subjectIssues s pre rowIndex ++
    durationIssues s pre rowIndex ++ startIssues s pre rowIndex ++ endIssues s pre rowIndex

/-- The record-level acceptance predicate: exactly the sessions whose
validateSession run yields no error-severity issue (for any row context:
the row index only changes message text). -/
def sessionErrorFree (s : Session) (allowMissingId : Bool) : Prop :=
  (allowMissingId = false → s.id ≠ "") ∧ jsTrim s.subject ≠ "" ∧ 0 < s.duration ∧
    s.startTime ≠ none ∧ s.endTime ≠ some none

instance (s : Session) (aid : Bool) : Decidable (sessionErrorFree s aid) := by
  unfold sessionErrorFree; infer_instance

/-! ### Persistence codec (saveSessions / loadSessions / addSession) -/

/-- The error accumulation of saveSessions: for each session (1-based row
index) the error-severity issues, concatenated in order. -/
def collectSaveErrors (i : Nat) : List Session → List ValidationError
  | [] => []
  | s :: rest =>
    (validateSession s (some i) false).filter ValidationError.isError ++
      collectSaveErrors (i + 1) rest

/-- The per-record filter of loadSessions and of legacy migration: keep the
sessions whose validation (1-based row index, ids required) produced no
error-severity issue. -/
def filterValidFrom (i : Nat) : List Session → List Session
  | [] => []
  | s :: rest =>
    if (validateSession s (some i) false).filter ValidationError.isError = [] then
      s :: filterValidFrom (i + 1) rest
    else filterValidFrom (i + 1) rest

/-- saveSessions.  Validates every record first; any error-severity issue
rejects the whole save with no write.  Otherwise a fresh envelope (version,
lastModified := now, sessionCount, checksum of the serialized array)
replaces the stored one in a single write.  The medium is modelled as
available and accepting (the quota branch of the source cannot fire); the
large-data console warning has no observable effect and is not modelled. -/
def saveSessions (st : StorageState) (sessions : List Session) (now : Int) :
    Except String StorageData × StorageState × List StoreEvent :=
  let allErrors := collectSaveErrors 1 sessions
  if allErrors = [] then
    let env : StorageData :=
      { metadata :=
          { version := CURRENT_VERSION, lastModified := now,
            sessionCount := sessions.length,
            dataChecksum := some (generateChecksum (serializeSessions sessions)) },
        sessions := sessions }
    (Except.ok env, { st with enhanced := some env }, [StoreEvent.writeEnhanced env])
  else
    (Except.error ("Cannot save invalid sessions: " ++
        String.intercalate ", " (allErrors.map (fun e => e.message))), st, [])

/-- migrateLegacyData.  Reads the legacy key; if absent returns the empty
list.  Otherwise revives the dates (the model stores the legacy array
already parsed, so revival is the identity), keeps the records that
validate without errors, and removes the legacy key - note the removal
happens inside this function, before the caller has written anything.
The console diagnostics of the source have no observable effect.  A
JSON.parse failure on the raw legacy string is outside the structural
model. -/
def migrateLegacyData (st : StorageState) : List Session × StorageState × List StoreEvent :=
  match st.legacy with
  | none => ([], st, [])
  | some legacySessions =>
    (filterValidFrom 1 legacySessions, { st with legacy := none }, [StoreEvent.removeLegacy])

/-- The outcome of loadSessions: the returned sequence, the medium state
after the call, the mutations performed in order, and whether the
integrity warning was logged. -/
structure LoadOutcome where
  sessions : List Session
  state : StorageState
  events : List StoreEvent
  integrityWarning : Bool
deriving DecidableEq

/-- loadSessions.  With no current-format envelope it attempts legacy
migration and, when that yields records, immediately persists them; with
an envelope present it revives dates (identity in the model), recomputes
the checksum over the serialized stored array, compares it to the stored
dataChecksum under JS truthiness (an absent or empty checksum disables the
check), and filters out individually invalid records.  The structural
model makes the malformed-envelope throw of the source unreachable; the
error branch below mirrors the surrounding catch, which falls back to a
second migration attempt. -/
def loadSessions (st : StorageState) (now : Int) : LoadOutcome :=
  match st.enhanced with
  | none =>
    let m := migrateLegacyData st
    if m.1.length > 0 then
      match saveSessions m.2.1 m.1 now with
      | (Except.ok _, st2, ev2) =>
        { sessions := m.1, state := st2, events := m.2.2 ++ ev2, integrityWarning := false }
      | (Except.error _, st2, ev2) =>
        let m2 := migrateLegacyData st2
        { sessions := m2.1, state := m2.2.1, events := m.2.2 ++ ev2 ++ m2.2.2,
          integrityWarning := false }
    else
      { sessions := [], state := m.2.1, events := m.2.2, integrityWarning := false }
  | some data =>
    let expectedChecksum := generateChecksum (serializeSessions data.sessions)
    let warn : Bool :=
      match data.metadata.dataChecksum with
      | none => false
      | some c => c != "" && c != expectedChecksum
    { sessions := filterValidFrom 1 data.sessions, state := st, events := [],
      integrityWarning := warn }

/-- addSession.  Validates the single record first (no row context, id
required); any error-severity issue raises before the store is read or
written.  Otherwise the current sequence is loaded, the record appended,
and the whole sequence saved. -/
def addSession (st : StorageState) (session : Session) (now : Int) :
    Except String Unit × StorageState × List StoreEvent :=
  let errors := validateSession session none false
  if errors.filter ValidationError.isError = [] then
    let r := loadSessions st now
    let saved := saveSessions r.state (r.sessions ++ [session]) now
    (saved.1.map (fun _ => ()), saved.2.1, r.events ++ saved.2.2)
  else
    (Except.error ("Invalid session: " ++
        String.intercalate ", " (errors.map (fun e => e.message))), st, [])

/-! ### Duplicate detection (findDuplicates) -/

/-- A reported duplicate pairing (the DuplicateInfo type of the source). -/
structure DuplicateInfo where
  existingSession : Session
  importedSession : Session
  matchReason : String
deriving DecidableEq

/-- The pairing condition: subjects equal after lowercasing then trimming,
and start times within 60000 ms of each other.  getTime() of an Invalid
Date is NaN, whose comparisons are all false, so a record with an invalid
start time never matches. -/
def duplicateMatch (existing newSession : Session) : Bool :=
  jsTrim (jsToLower existing.subject) == jsTrim (jsToLower newSession.subject) &&
    match existing.startTime, newSession.startTime with
    | some a, some b => (a - b).natAbs < 60000
    | _, _ => false

/-- findDuplicates: for each incoming candidate, the first existing session
satisfying the pairing condition (Array.prototype.find), if any, is
reported. -/
def findDuplicates (newSessions existingSessions : List Session) : List DuplicateInfo :=
  newSessions.filterMap fun ns =>
    (existingSessions.find? fun existing => duplicateMatch existing ns).map fun d =>
      { existingSession := d, importedSession := ns,
        matchReason := "Same subject and start time (within 1 minute)" }

/-! ### CSV import pipeline (validateCSVFile, post-parse stage) -/

/-- One parsed CSV data row, as Papa.parse with a header row yields it:
each known column either absent (header missing / field undefined) or a
string. -/
structure CSVRow where
  id : Option String
  subject : Option String
  duration : Option String
  startTime : Option String
  endTime : Option String
  completed : Option String
deriving DecidableEq

def digitVal (c : Char) : Option Nat :=
  if c.isDigit then some (c.toNat - 48) else none

/-- Read exactly n leading digits as a number, returning the rest. -/
def parseDigitsGo : Nat → Nat → List Char → Option (Nat × List Char)
  | 0, acc, cs => some (acc, cs)
  | n + 1, acc, c :: cs =>
    match digitVal c with
    | some d => parseDigitsGo n (acc * 10 + d) cs
    | none => none
  | _ + 1, _, [] => none

def expectChar (c : Char) : List Char → Option (List Char)
  | c2 :: cs => if c2 = c then some cs else none
  | [] => none

/-- Days since the Unix epoch of a civil date. -/
def daysFromCivil (y0 m d : Int) : Int :=
  let y := y0 - (if m ≤ 2 then 1 else 0)
  let era := Int.fdiv y 400
  let yoe := y - era * 400
  let doy := Int.fdiv (153 * (m + (if 2 < m then -3 else 9)) + 2) 5 + d - 1
  let doe := yoe * 365 + Int.fdiv yoe 4 - Int.fdiv yoe 100 + doy
  era * 146097 + doe - 719468

/-- Modelled subset of the ES Date parser used by new Date(string): the
ISO forms YYYY-MM-DD (date-only, UTC midnight) and
YYYY-MM-DDTHH:MM:SS.sssZ (the form toISOString and the CSV exporter
produce).  Any other text is modelled as an Invalid Date.  Field ranges
are checked; day-of-month overflow within 1..31 is accepted as the
engines do for Date-only forms. -/
def jsParseDate (s : String) : JSDate := Id.run do
  let cs := s.data
  let some (y, cs) := parseDigitsGo 4 0 cs | return none
  let some cs := expectChar (Char.ofNat 45) cs | return none
  let some (mo, cs) := parseDigitsGo 2 0 cs | return none
  let some cs := expectChar (Char.ofNat 45) cs | return none
  let some (d, cs) := parseDigitsGo 2 0 cs | return none
  if mo < 1 ∨ 12 < mo ∨ d < 1 ∨ 31 < d then return none
  let dayMs := daysFromCivil (Int.ofNat y) (Int.ofNat mo) (Int.ofNat d) * 86400000
  match cs with
  | [] => return some dayMs
  | _ =>
    let some cs := expectChar (Char.ofNat 84) cs | return none
    let some (hh, cs) := parseDigitsGo 2 0 cs | return none
    let some cs := expectChar (Char.ofNat 58) cs | return none
    let some (mi, cs) := parseDigitsGo 2 0 cs | return none
    let some cs := expectChar (Char.ofNat 58) cs | return none
    let some (ss, cs) := parseDigitsGo 2 0 cs | return none
    let some cs := expectChar (Char.ofNat 46) cs | return none
    let some (mmm, cs) := parseDigitsGo 3 0 cs | return none
    let some cs := expectChar (Char.ofNat 90) cs | return none
    if cs ≠ [] ∨ 23 < hh ∨ 59 < mi ∨ 59 < ss then return none
    return some (dayMs + (Int.ofNat hh) * 3600000 + (Int.ofNat mi) * 60000 +
      (Int.ofNat ss) * 1000 + Int.ofNat mmm)

/-- Leading digits (at least one) as a number, with the rest. -/
def parseLeadingDigits : List Char → Nat → Nat → Option Nat × List Char
  | [], 0, _ => (none, [])
  | [], _ + 1, acc => (some acc, [])
  | c :: cs, seen, acc =>
    match digitVal c with
    | some d => parseLeadingDigits cs (seen + 1) (acc * 10 + d)
    | none => if seen = 0 then (none, c :: cs) else (some acc, c :: cs)

/-- Modelled subset of parseFloat: optional leading whitespace, optional
sign, then a decimal literal, parsing the longest numeric prefix; no digit
yields NaN (none).  Because durations are modelled as integers, any
fractional digits are truncated - a deliberate restriction of the numeric
domain, not of the control flow. -/
def jsParseFloat (s : String) : Option Int :=
  let cs := (jsTrim s).data
  match cs with
  | c :: rest =>
    if c = Char.ofNat 45 then (parseLeadingDigits rest 0 0).1.map (fun n => -(Int.ofNat n))
    else if c = Char.ofNat 43 then (parseLeadingDigits rest 0 0).1.map Int.ofNat
    else (parseLeadingDigits cs 0 0).1.map Int.ofNat
  | [] => none

/-- The preview record handed back to the caller of validateCSVFile. -/
structure ImportPreview where
  totalRows : Nat
  validRows : Nat
  errors : List ValidationError
  sampleData : List Session
  duplicates : List DuplicateInfo
  generatedIds : Nat
deriving DecidableEq

/-- The per-row loop of validateCSVFile.  gen is the fresh-id oracle
standing for generateId() (timestamp plus randomness), indexed by how many
ids have been generated so far.  Carries the 1-based-plus-header row
number, the set of ids already used in this batch, and the generated-id
counter; returns the accumulated issues, the accepted candidates and the
final counter.  The try/catch around each row cannot fire in the
structural model. -/
def processRows (gen : Nat → String) :
    List CSVRow → Nat → List String → Nat →
      List ValidationError × List Session × Nat
  | [], _, _, genCount => ([], [], genCount)
  | row :: rest, rowNumber, usedIds, genCount =>
    let trimmedId := jsTrim (row.id.getD "")
    let idStep : String × Nat :=
      if trimmedId = "" then (gen genCount, genCount + 1) else (trimmedId, genCount)
    let dupStep : String × Nat × List ValidationError :=
      if usedIds.contains idStep.1 then
        (gen idStep.2, idStep.2 + 1,
          [{ type := Severity.warning,
             message := rowPre (some rowNumber) ++ "Duplicate ID found, auto-generated new ID",
             row := some rowNumber, column := some "id" }])
      else (idStep.1, idStep.2, [])
    let session : Session :=
      { id := dupStep.1,
        subject := jsTrim (row.subject.getD ""),
        duration := (jsParseFloat (row.duration.getD "")).getD 0,
        startTime :=
          match row.startTime with
          | none => none
          | some t => jsParseDate t,
        endTime :=
          match row.endTime with
          | none => none
          | some e => if e = "" then none else some (jsParseDate e),
        completed := row.completed = some "true" }
    let vErrors := validateSession session (some rowNumber) true
    let tail := processRows gen rest (rowNumber + 1) (dupStep.1 :: usedIds) dupStep.2.1
    (dupStep.2.2 ++ vErrors ++ tail.1,
      (if vErrors.filter ValidationError.isError = [] then [session] else []) ++ tail.2.1,
      tail.2.2)

/-- The complete-callback of validateCSVFile, after Papa.parse has produced
the header list and the data rows: the required-column check, then (only
when it found nothing missing) the per-row loop, then duplicate detection
of the candidates against the existing persisted sessions. -/
def validateCSVContent (headers : List String) (rows : List CSVRow)
    (existingSessions : List Session) (gen : Nat → String) : ImportPreview :=
  let requiredColumns := ["subject", "duration", "startTime", "completed"]
  let headerErrors := requiredColumns.filterMap fun col =>
    if headers.contains col then none
    else some ({ type := Severity.error, message := "Missing required column: " ++ col,
                 row := none, column := some col } : ValidationError)
  let body :=
    if headerErrors = [] then processRows gen rows 2 [] 0
    else (headerErrors, [], 0)
  let duplicates := findDuplicates body.2.1 existingSessions
  { totalRows := rows.length, validRows := body.2.1.length, errors := body.1,
    sampleData := body.2.1, duplicates := duplicates, generatedIds := body.2.2 }

/-! ### Statistics (getSessionStats) -/

structure SessionStats where
  daily : Nat
  weekly : Nat
  monthly : Nat
deriving DecidableEq

/-- Midnight of the current local calendar day, in epoch ms.  Local time is
modelled as UTC plus a fixed offset tz in ms (daylight-saving transitions
are outside the model); new Date(y, m, d) of the source floors the local
time to its calendar day. -/
def localMidnight (now tz : Int) : Int :=
  Int.fdiv (now + tz) 86400000 * 86400000 - tz

/-- The Date comparison s.startTime >= t: false when the start time is an
Invalid Date (NaN compares false against everything). -/
def startGE (s : Session) (t : Int) : Bool :=
  match s.startTime with
  | some x => t ≤ x
  | none => false

/-- The rollup computation of getSessionStats on an already-loaded session
list: restrict to completed sessions, then count those starting on or
after local midnight, midnight minus 7 days and midnight minus 30 days. -/
def sessionStatsOf (sessions : List Session) (now tz : Int) : SessionStats :=
  let completedSessions := sessions.filter fun s => s.completed
  let today := localMidnight now tz
  let weekAgo := today - 7 * 24 * 60 * 60 * 1000
  let monthAgo := today - 30 * 24 * 60 * 60 * 1000
  { daily := (completedSessions.filter fun s => startGE s today).length,
    weekly := (completedSessions.filter fun s => startGE s weekAgo).length,
    monthly := (completedSessions.filter fun s => startGE s monthAgo).length }

/-- getSessionStats: load through the codec, then compute the rollups. -/
def getSessionStats (st : StorageState) (now tz : Int) : SessionStats :=
  sessionStatsOf (loadSessions st now).sessions now tz

/-! ### Concrete sample data for witness evaluation -/

/-- A concrete valid session. -/
def sampleValid : Session :=
  { id := "s1", subject := "Math", duration := 25, startTime := some 0,
    endTime := none, completed := true }

/-- A concrete invalid session: its duration of -5 draws an error-severity
issue. -/
def sampleInvalid : Session :=
  { id := "s2", subject := "Math", duration := -5, startTime := some 0,
    endTime := none, completed := true }

/-- An envelope whose stored checksum cannot match its sessions: a
generated checksum is the base-36 rendering of a 32-bit magnitude and so
has at most 6 characters, while this stored value has 7. -/
def mismatchedEnvelope : StorageData :=
  { metadata :=
      { version := CURRENT_VERSION, lastModified := 0, sessionCount := 1,
        dataChecksum := some "zzzzzzz" },
    sessions := [sampleValid] }

/-- An envelope whose metadata carries no checksum value. -/
def noChecksumEnvelope : StorageData :=
  { metadata :=
      { version := CURRENT_VERSION, lastModified := 0, sessionCount := 1,
        dataChecksum := none },
    sessions := [sampleValid] }

/-- A valid Math session starting at the given epoch-ms instant, used to
probe duplicate detection. -/
def mathAt (idText : String) (t : Int) : Session :=
  { id := idText, subject := "Math", duration := 25, startTime := some t,
    endTime := none, completed := true }

/-- A session whose endTime equals its startTime. -/
def eqTimesSession : Session :=
  { id := "a", subject := "s", duration := 1, startTime := some 0,
    endTime := some (some 0), completed := true }

/-- The same envelope with its checksum field replaced by the checksum
recomputed over its stored sessions (the matched-checksum counterfactual
used to state claim C10). -/
def withMatchingChecksum (data : StorageData) : StorageData :=
  { data with
    metadata :=
      { data.metadata with
        dataChecksum := some (generateChecksum (serializeSessions data.sessions)) } }

/-! ### Validation lemmas -/

theorem isError_iff (e : ValidationError) : e.isError = true ↔ e.type = Severity.error := by
  unfold ValidationError.isError
  cases h : e.type <;> simp [h]

theorem filter_idIssues (s : Session) (p : String) (r : Option Nat) (aid : Bool) :
    (idIssues s p r aid).filter ValidationError.isError = [] ↔ (aid = false → s.id ≠ "") := by
  unfold idIssues
  split_ifs with h <;> simp [ValidationError.isError, List.filter] <;> tauto

theorem filter_subjectIssues (s : Session) (p : String) (r : Option Nat) :
    (subjectIssues s p r).filter ValidationError.isError = [] ↔ jsTrim s.subject ≠ "" := by
  unfold subjectIssues
  split_ifs with h <;> simp [ValidationError.isError, List.filter] <;> tauto

theorem filter_durationIssues (s : Session) (p : String) (r : Option Nat) :
    (durationIssues s p r).filter ValidationError.isError = [] ↔ 0 < s.duration := by
  unfold durationIssues
  split_ifs with h <;> simp [ValidationError.isError, List.filter] <;> omega

theorem filter_startIssues (s : Session) (p : String) (r : Option Nat) :
    (startIssues s p r).filter ValidationError.isError = [] ↔ s.startTime ≠ none := by
  unfold startIssues
  split_ifs with h <;> simp [ValidationError.isError, List.filter] <;> tauto

theorem filter_endIssues (s : Session) (p : String) (r : Option Nat) :
    (endIssues s p r).filter ValidationError.isError = [] ↔ s.endTime ≠ some none := by
  unfold endIssues
  cases he : s.endTime with
  | none => simp [he]
  | some d =>
    cases d with
    | none => simp [ValidationError.isError, List.filter, he]
    | some et =>
      cases hs : s.startTime with
      | none => simp [he]
      | some st =>
        by_cases h : et ≤ st <;> simp [ValidationError.isError, List.filter, he, h]

/-- Error-freeness of a record is exactly the sessionErrorFree predicate,
whatever row context and id policy the validation ran under: the row index
only changes the message text. -/
theorem validateSession_errors_iff (s : Session) (r : Option Nat) (aid : Bool) :
    (validateSession s r aid).filter ValidationError.isError = [] ↔ sessionErrorFree s aid := by
  unfold validateSession sessionErrorFree
  simp only [List.filter_append, List.append_eq_nil, filter_idIssues, filter_subjectIssues,
    filter_durationIssues, filter_startIssues, filter_endIssues]
  tauto

/-- A record has some error-severity issue iff its error filter is
nonempty. -/
theorem exists_error_iff (s : Session) (r : Option Nat) (aid : Bool) :
    (∃ e ∈ validateSession s r aid, e.type = Severity.error) ↔
      (validateSession s r aid).filter ValidationError.isError ≠ [] := by
  rw [Ne, List.filter_eq_nil_iff]
  push_neg
  constructor
  · rintro ⟨e, he, ht⟩
    exact ⟨e, he, (isError_iff e).mpr ht⟩
  · rintro ⟨e, he, ht⟩
    exact ⟨e, he, (isError_iff e).mp ht⟩

theorem collectSaveErrors_eq_nil (l : List Session) :
    ∀ i, collectSaveErrors i l = [] ↔ ∀ s ∈ l, sessionErrorFree s false := by
  induction l with
  | nil => intro i; simp [collectSaveErrors]
  | cons a rest ih =>
    intro i
    simp only [collectSaveErrors, List.append_eq_nil, validateSession_errors_iff, ih (i + 1),
      List.forall_mem_cons]

theorem filterValidFrom_eq_self (l : List Session) :
    ∀ i, (∀ s ∈ l, sessionErrorFree s false) → filterValidFrom i l = l := by
  induction l with
  | nil => intro i _; rfl
  | cons a rest ih =>
    intro i h
    unfold filterValidFrom
    rw [if_pos ((validateSession_errors_iff a (some i) false).mpr
      (h a (List.mem_cons_self a rest)))]
    rw [ih (i + 1) fun s hs => h s (List.mem_cons_of_mem a hs)]

theorem mem_filterValidFrom (l : List Session) :
    ∀ i s, s ∈ filterValidFrom i l → sessionErrorFree s false := by
  induction l with
  | nil => intro i s h; simp [filterValidFrom] at h
  | cons a rest ih =>
    intro i s h
    unfold filterValidFrom at h
    split_ifs at h with hv
    · rcases List.mem_cons.mp h with rfl | hm
      · exact (validateSession_errors_iff s (some i) false).mp hv
      · exact ih (i + 1) s hm
    · exact ih (i + 1) s h

/-! ### Checksum magnitude lemmas (no kernel evaluation of full hashes) -/

theorem wrap32_bounds (x : Int) : -2147483648 ≤ wrap32 x ∧ wrap32 x < 2147483648 := by
  unfold wrap32
  have h1 : 0 ≤ (x + 2147483648) % 4294967296 := Int.emod_nonneg _ (by norm_num)
  have h2 : (x + 2147483648) % 4294967296 < 4294967296 :=
    Int.emod_lt_of_pos _ (by norm_num)
  omega

theorem hashStep_bound (h : Int) (c : Nat) : (hashStep h c).natAbs ≤ 2147483648 := by
  unfold hashStep
  have := wrap32_bounds (wrap32 (h * 32) - h + (c : Int))
  omega

theorem foldl_hashStep_bound (l : List Nat) :
    ∀ h : Int, h.natAbs ≤ 2147483648 → (l.foldl hashStep h).natAbs ≤ 2147483648 := by
  induction l with
  | nil => intro h hh; exact hh
  | cons c cs ih =>
    intro h hh
    exact ih (hashStep h c) (hashStep_bound h c)

theorem natToBase36Go_length :
    ∀ (k fuel n : Nat) (acc : List Char), n < 36 ^ k →
      (natToBase36Go fuel n acc).length ≤ acc.length + k := by
  intro k
  induction k with
  | zero =>
    intro fuel n acc hn
    have hn0 : n = 0 := by simpa using hn
    cases fuel with
    | zero => simp [natToBase36Go]
    | succ f => simp [natToBase36Go, hn0]
  | succ k ih =>
    intro fuel n acc hn
    cases fuel with
    | zero => simp [natToBase36Go]
    | succ f =>
      by_cases h0 : n = 0
      · simp [natToBase36Go, h0]
      · rw [natToBase36Go, if_neg h0]
        have hdiv : n / 36 < 36 ^ k := by
          rw [Nat.div_lt_iff_lt_mul (by norm_num)]
          calc n < 36 ^ (k + 1) := hn
          _ = 36 ^ k * 36 := by ring
        have h2 := ih f (n / 36) (base36Char (n % 36) :: acc) hdiv
        simp only [List.length_cons] at h2
        omega

/-- A generated checksum is the base-36 rendering of a magnitude of at most
2^31, so it never exceeds 6 characters. -/
theorem generateChecksum_length (s : String) : (generateChecksum s).length ≤ 6 := by
  unfold generateChecksum natToBase36
  have hb : ((s.data.flatMap utf16Units).foldl hashStep 0).natAbs ≤ 2147483648 :=
    foldl_hashStep_bound (s.data.flatMap utf16Units) 0 (by simp)
  split_ifs with h0
  · decide
  · have hlt : ((s.data.flatMap utf16Units).foldl hashStep 0).natAbs < 36 ^ 6 := by
      calc ((s.data.flatMap utf16Units).foldl hashStep 0).natAbs ≤ 2147483648 := hb
      _ < 36 ^ 6 := by norm_num
    have := natToBase36Go_length 6
      (((s.data.flatMap utf16Units).foldl hashStep 0).natAbs + 1)
      ((s.data.flatMap utf16Units).foldl hashStep 0).natAbs [] hlt
    simpa [String.length] using this

/-! ### Claim theorems -/

/-- Claim C1: a save whose input contains a record with an error-severity
validation issue is rejected with a raise, performing no write and leaving
the medium exactly as it was; a save whose input has no error-severity
issues replaces the envelope in one write, with sessionCount and
dataChecksum computed from the saved list. -/
theorem C1_save_all_or_nothing (st : StorageState) (sessions : List Session) (now : Int) :
    ((∃ s ∈ sessions, ∃ e ∈ validateSession s none false, e.type = Severity.error) →
      ∃ msg, saveSessions st sessions now = (Except.error msg, st, [])) ∧
    ((∀ s ∈ sessions, ∀ e ∈ validateSession s none false, e.type ≠ Severity.error) →
      ∃ env, saveSessions st sessions now =
          (Except.ok env, { st with enhanced := some env }, [StoreEvent.writeEnhanced env]) ∧
        env.metadata.sessionCount = sessions.length ∧
        env.metadata.dataChecksum = some (generateChecksum (serializeSessions sessions)) ∧
        env.sessions = sessions) := by
  constructor
  · rintro ⟨s, hs, e, he, ht⟩
    have hbad : ¬ sessionErrorFree s false := by
      intro hfree
      exact (exists_error_iff s none false).mp ⟨e, he, ht⟩
        ((validateSession_errors_iff s none false).mpr hfree)
    have hcol : ¬ collectSaveErrors 1 sessions = [] := fun hc =>
      hbad ((collectSaveErrors_eq_nil sessions 1).mp hc s hs)
    simp only [saveSessions]
    rw [if_neg hcol]
    exact ⟨_, rfl⟩
  · intro h
    have hfree : ∀ s ∈ sessions, sessionErrorFree s false := by
      intro s hs
      rw [← validateSession_errors_iff s none false, List.filter_eq_nil_iff]
      intro e he hb
      exact h s hs e he ((isError_iff e).mp hb)
    have hcol : collectSaveErrors 1 sessions = [] :=
      (collectSaveErrors_eq_nil sessions 1).mpr hfree
    simp only [saveSessions]
    rw [if_pos hcol]
    exact ⟨_, rfl, rfl, rfl, rfl⟩

/-- Witness for C1: a batch holding a duration of -5 is rejected with the
medium untouched; a valid singleton batch is written with matching count
and checksum. -/
theorem C1_witness :
    (∃ msg, saveSessions { enhanced := none, legacy := none } [sampleInvalid] 0 =
      (Except.error msg, { enhanced := none, legacy := none }, [])) ∧
    (∃ env, saveSessions { enhanced := none, legacy := none } [sampleValid] 0 =
        (Except.ok env, { enhanced := some env, legacy := none },
          [StoreEvent.writeEnhanced env]) ∧
      env.metadata.sessionCount = [sampleValid].length ∧
      env.metadata.dataChecksum = some (generateChecksum (serializeSessions [sampleValid])) ∧
      env.sessions = [sampleValid]) :=
  ⟨(C1_save_all_or_nothing { enhanced := none, legacy := none } [sampleInvalid] 0).1 (by decide),
   (C1_save_all_or_nothing { enhanced := none, legacy := none } [sampleValid] 0).2 (by decide)⟩

/-- Claim C2: saving a sequence with no error-severity issues and loading
it back returns the same sequence, record for record and in order (dates
are compared at the millisecond granularity the serialization keeps). -/
theorem C2_save_load_roundtrip (st : StorageState) (sessions : List Session) (now now2 : Int)
    (h : ∀ s ∈ sessions, ∀ e ∈ validateSession s none false, e.type ≠ Severity.error) :
    (loadSessions (saveSessions st sessions now).2.1 now2).sessions = sessions := by
  have hfree : ∀ s ∈ sessions, sessionErrorFree s false := by
    intro s hs
    rw [← validateSession_errors_iff s none false, List.filter_eq_nil_iff]
    intro e he hb
    exact h s hs e he ((isError_iff e).mp hb)
  have hcol : collectSaveErrors 1 sessions = [] :=
    (collectSaveErrors_eq_nil sessions 1).mpr hfree
  simp only [saveSessions]
  rw [if_pos hcol]
  simp only [loadSessions]
  exact filterValidFrom_eq_self sessions 1 hfree

/-- Witness for C2: the valid singleton round-trips. -/
theorem C2_witness :
    (loadSessions (saveSessions { enhanced := none, legacy := none } [sampleValid] 0).2.1 0).sessions =
      [sampleValid] :=
  C2_save_load_roundtrip { enhanced := none, legacy := none } [sampleValid] 0 0 (by decide)

/-- Claim C9: addSession on a record with an error-severity issue raises
before the store is read or written; the medium is exactly as before and
nothing is appended. -/
theorem C9_addSession_rejects_invalid (st : StorageState) (session : Session) (now : Int)
    (h : ∃ e ∈ validateSession session none false, e.type = Severity.error) :
    ∃ msg, addSession st session now = (Except.error msg, st, []) := by
  have hne := (exists_error_iff session none false).mp h
  simp only [addSession]
  rw [if_neg hne]
  exact ⟨_, rfl⟩

/-- Witness for C9: adding the invalid sample changes nothing. -/
theorem C9_witness :
    ∃ msg, addSession { enhanced := none, legacy := none } sampleInvalid 0 =
      (Except.error msg, { enhanced := none, legacy := none }, []) :=
  C9_addSession_rejects_invalid { enhanced := none, legacy := none } sampleInvalid 0 (by decide)

/-- Claim C4: a present, non-empty stored checksum differing from the one
recomputed over the serialized stored array makes loadSessions log the
integrity warning, yet the per-record-filtered sessions are still
returned, nothing is discarded and the medium is not touched. -/
theorem C4_checksum_mismatch_warns_but_loads (st : StorageState) (data : StorageData)
    (now : Int) (c : String) (h1 : st.enhanced = some data)
    (h2 : data.metadata.dataChecksum = some c) (h3 : c ≠ "")
    (h4 : c ≠ generateChecksum (serializeSessions data.sessions)) :
    (loadSessions st now).integrityWarning = true ∧
    (loadSessions st now).sessions = filterValidFrom 1 data.sessions ∧
    (loadSessions st now).state = st ∧ (loadSessions st now).events = [] := by
  simp [loadSessions, h1, h2, bne_iff_ne, h3, h4]

/-- Witness for C4: a concrete envelope stored with checksum zz. -/
theorem C4_witness :
    (loadSessions { enhanced := some mismatchedEnvelope, legacy := none } 0).integrityWarning = true ∧
    (loadSessions { enhanced := some mismatchedEnvelope, legacy := none } 0).sessions =
      filterValidFrom 1 mismatchedEnvelope.sessions ∧
    (loadSessions { enhanced := some mismatchedEnvelope, legacy := none } 0).state =
      { enhanced := some mismatchedEnvelope, legacy := none } ∧
    (loadSessions { enhanced := some mismatchedEnvelope, legacy := none } 0).events = [] :=
  C4_checksum_mismatch_warns_but_loads { enhanced := some mismatchedEnvelope, legacy := none }
    mismatchedEnvelope 0 "zzzzzzz" rfl rfl (by decide)
    (fun h => absurd (h ▸ generateChecksum_length (serializeSessions mismatchedEnvelope.sessions))
      (by decide))

/-- Claim C10: with the stored checksum absent or empty, loadSessions
performs no integrity comparison and emits no warning, and returns exactly
the sessions it would return had the checksum matched. -/
theorem C10_absent_checksum_skips_check (st : StorageState) (data : StorageData) (now : Int)
    (h1 : st.enhanced = some data)
    (h2 : data.metadata.dataChecksum = none ∨ data.metadata.dataChecksum = some "") :
    (loadSessions st now).integrityWarning = false ∧
    (loadSessions st now).sessions = filterValidFrom 1 data.sessions ∧
    (loadSessions st now).sessions =
      (loadSessions { st with enhanced := some (withMatchingChecksum data) } now).sessions ∧
    (loadSessions st now).state = st ∧ (loadSessions st now).events = [] := by
  rcases h2 with h2 | h2 <;> simp [loadSessions, withMatchingChecksum, h1, h2]

/-- Witness for C10: a concrete envelope stored without a checksum. -/
theorem C10_witness :
    (loadSessions { enhanced := some noChecksumEnvelope, legacy := none } 0).integrityWarning = false ∧
    (loadSessions { enhanced := some noChecksumEnvelope, legacy := none } 0).sessions =
      filterValidFrom 1 noChecksumEnvelope.sessions ∧
    (loadSessions { enhanced := some noChecksumEnvelope, legacy := none } 0).sessions =
      (loadSessions
        { enhanced := some (withMatchingChecksum noChecksumEnvelope), legacy := none }
        0).sessions ∧
    (loadSessions { enhanced := some noChecksumEnvelope, legacy := none } 0).state =
      { enhanced := some noChecksumEnvelope, legacy := none } ∧
    (loadSessions { enhanced := some noChecksumEnvelope, legacy := none } 0).events = [] :=
  C10_absent_checksum_skips_check { enhanced := some noChecksumEnvelope, legacy := none }
    noChecksumEnvelope 0 rfl (Or.inl rfl)

/-- Counterexample to claim C3 as stated: starting from a medium holding
only legacy data, the very first mutation loadSessions performs is the
legacy-key removal, so after that prefix of its own event trace the legacy
key is gone while no envelope has yet been written under the
current-format key. -/
theorem C3_counterexample :
    (loadSessions { enhanced := none, legacy := some [sampleValid] } 0).events.take 1 =
      [StoreEvent.removeLegacy] ∧
    runEvents { enhanced := none, legacy := some [sampleValid] }
        ((loadSessions { enhanced := none, legacy := some [sampleValid] } 0).events.take 1) =
      { enhanced := none, legacy := none } := by
  constructor
  · rfl
  · rfl

/-- Claim C3 (amended): during a loadSessions-triggered migration the
legacy key is deleted inside migrateLegacyData, before the caller writes
the migrated records: the event trace is the removal followed by the
envelope write, so there is a reachable intermediate point with the legacy
key gone and the new envelope not yet written; by the end of the call the
migrated sessions are durably stored under the current-format key. -/
theorem C3_migration_deletes_before_write (st : StorageState) (l : List Session) (now : Int)
    (h1 : st.enhanced = none) (h2 : st.legacy = some l)
    (h3 : filterValidFrom 1 l ≠ []) :
    ∃ env,
      (loadSessions st now).events =
        [StoreEvent.removeLegacy, StoreEvent.writeEnhanced env] ∧
      env.sessions = filterValidFrom 1 l ∧
      (loadSessions st now).state = { enhanced := some env, legacy := none } ∧
      (loadSessions st now).sessions = filterValidFrom 1 l ∧
      runEvents st ((loadSessions st now).events.take 1) =
        { enhanced := none, legacy := none } := by
  have hcol : collectSaveErrors 1 (filterValidFrom 1 l) = [] :=
    (collectSaveErrors_eq_nil _ 1).mpr fun s hs => mem_filterValidFrom l 1 s hs
  have hlen : 0 < (filterValidFrom 1 l).length := List.length_pos.mpr h3
  obtain ⟨e, leg⟩ := st
  simp only at h1 h2
  subst h1
  subst h2
  simp only [loadSessions, migrateLegacyData]
  rw [if_pos hlen]
  simp only [saveSessions]
  rw [if_pos hcol]
  exact ⟨_, rfl, rfl, rfl, rfl, rfl⟩

/-- Witness for the amended C3: concrete legacy-only medium. -/
theorem C3_witness :
    ∃ env,
      (loadSessions { enhanced := none, legacy := some [sampleValid] } 1).events =
        [StoreEvent.removeLegacy, StoreEvent.writeEnhanced env] ∧
      env.sessions = filterValidFrom 1 [sampleValid] ∧
      (loadSessions { enhanced := none, legacy := some [sampleValid] } 1).state =
        { enhanced := some env, legacy := none } ∧
      (loadSessions { enhanced := none, legacy := some [sampleValid] } 1).sessions =
        filterValidFrom 1 [sampleValid] ∧
      runEvents { enhanced := none, legacy := some [sampleValid] }
          ((loadSessions { enhanced := none, legacy := some [sampleValid] } 1).events.take 1) =
        { enhanced := none, legacy := none } :=
  C3_migration_deletes_before_write { enhanced := none, legacy := some [sampleValid] }
    [sampleValid] 1 rfl rfl (by decide)

/-! ### Duplicate-detection lemmas and claims C5 to C8 -/

/-- findDuplicates of one candidate against one existing session, computed. -/
theorem findDuplicates_singleton (ns e : Session) :
    findDuplicates [ns] [e] =
      if duplicateMatch e ns then
        [{ existingSession := e, importedSession := ns,
           matchReason := "Same subject and start time (within 1 minute)" }]
      else [] := by
  by_cases hm : duplicateMatch e ns = true
  · simp [findDuplicates, List.find?_cons, hm]
  · have hm2 : duplicateMatch e ns = false := by simpa using hm
    simp [findDuplicates, List.find?_cons, hm2]

/-- Counterexample to claim C5 as stated: with two existing sessions that
both satisfy the matching condition against one candidate, findDuplicates
pairs the candidate only with the first of them, so the second pair
satisfies the condition yet is never reported - the pair-level if and only
if fails. -/
theorem C5_counterexample :
    duplicateMatch (mathAt "e2" 1000) (mathAt "n1" 30000) = true ∧
    findDuplicates [mathAt "n1" 30000] [mathAt "e1" 0, mathAt "e2" 1000] =
      [{ existingSession := mathAt "e1" 0, importedSession := mathAt "n1" 30000,
         matchReason := "Same subject and start time (within 1 minute)" }] ∧
    (∀ info ∈ findDuplicates [mathAt "n1" 30000] [mathAt "e1" 0, mathAt "e2" 1000],
      info.existingSession ≠ mathAt "e2" 1000) := by
  refine ⟨by decide, by decide, by decide⟩

/-- Claim C5 (amended): every pair findDuplicates reports satisfies the
matching condition and is drawn from the input lists; a candidate is
reported if and only if some existing session matches it, the reported
partner being the first such session; and for one candidate against one
existing session the pair is reported exactly when the subjects agree
after lowercasing and trimming and the start times differ by strictly
less than 60 seconds. -/
theorem C5_duplicate_rule (newSessions existingSessions : List Session) :
    (∀ info ∈ findDuplicates newSessions existingSessions,
      duplicateMatch info.existingSession info.importedSession = true ∧
      info.importedSession ∈ newSessions ∧ info.existingSession ∈ existingSessions) ∧
    (∀ ns ∈ newSessions,
      ((∃ e ∈ existingSessions, duplicateMatch e ns = true) ↔
        ∃ info ∈ findDuplicates newSessions existingSessions, info.importedSession = ns)) ∧
    (∀ (e ns : Session) (a b : Int), e.startTime = some a → ns.startTime = some b →
      (findDuplicates [ns] [e] ≠ [] ↔
        (jsTrim (jsToLower e.subject) = jsTrim (jsToLower ns.subject) ∧
          (a - b).natAbs < 60000))) := by
  have partA : ∀ info ∈ findDuplicates newSessions existingSessions,
      duplicateMatch info.existingSession info.importedSession = true ∧
      info.importedSession ∈ newSessions ∧ info.existingSession ∈ existingSessions := by
    intro info hinfo
    simp only [findDuplicates] at hinfo
    obtain ⟨ns, hns, hf⟩ := List.mem_filterMap.mp hinfo
    obtain ⟨d, hfind, hmk⟩ := Option.map_eq_some'.mp hf
    subst hmk
    have hp0 := List.find?_some hfind
    have hp : duplicateMatch d ns = true := by simpa using hp0
    exact ⟨hp, hns, List.mem_of_find?_eq_some hfind⟩
  refine ⟨partA, ?_, ?_⟩
  · intro ns hns
    constructor
    · rintro ⟨e, he, hm⟩
      have hsome : (existingSessions.find? fun ex => duplicateMatch ex ns).isSome :=
        List.find?_isSome.mpr ⟨e, he, hm⟩
      obtain ⟨d, hd⟩ := Option.isSome_iff_exists.mp hsome
      refine ⟨{ existingSession := d, importedSession := ns,
                matchReason := "Same subject and start time (within 1 minute)" }, ?_, rfl⟩
      simp only [findDuplicates]
      exact List.mem_filterMap.mpr ⟨ns, hns, by rw [hd]; rfl⟩
    · rintro ⟨info, hmem, himp⟩
      obtain ⟨hm, _, hex⟩ := partA info hmem
      rw [himp] at hm
      exact ⟨info.existingSession, hex, hm⟩
  · intro e ns a b ha hb
    have hDM : duplicateMatch e ns = true ↔
        (jsTrim (jsToLower e.subject) = jsTrim (jsToLower ns.subject) ∧
          (a - b).natAbs < 60000) := by
      simp [duplicateMatch, ha, hb]
    rw [findDuplicates_singleton]
    by_cases hm : duplicateMatch e ns = true
    · rw [if_pos hm]
      simp [hDM.mp hm]
    · rw [if_neg hm]
      constructor
      · intro hx
        exact absurd rfl hx
      · intro hc
        exact absurd (hDM.mpr hc) hm

/-- Witness for the amended C5: Math sessions 30 seconds apart are
flagged, 90 seconds apart are not. -/
theorem C5_witness :
    findDuplicates [mathAt "n1" 30000] [mathAt "e1" 0] ≠ [] ∧
    findDuplicates [mathAt "n2" 90000] [mathAt "e1" 0] = [] := by
  constructor
  · exact ((C5_duplicate_rule [mathAt "n1" 30000] [mathAt "e1" 0]).2.2 (mathAt "e1" 0)
      (mathAt "n1" 30000) 0 30000 rfl rfl).mpr ⟨rfl, by decide⟩
  · decide

/-- The filterMap of the required-column check is the map of the missing
columns. -/
theorem filterMap_missing_columns (headers cols : List String)
    (mk : String → ValidationError) :
    cols.filterMap (fun col => if headers.contains col then none else some (mk col)) =
      (cols.filter fun c => !headers.contains c).map mk := by
  induction cols with
  | nil => rfl
  | cons c cs ih =>
    by_cases h : c ∈ headers <;>
      simp [List.filterMap_cons, List.filter_cons, h] <;>
      simpa using ih

/-- Claim C6: a CSV whose header lacks required columns aborts row-level
processing: zero valid rows, no candidates, no generated ids, no
duplicates, and the issue list is exactly one error-severity issue per
missing required column, referencing that column. -/
theorem C6_missing_required_columns (headers : List String) (rows : List CSVRow)
    (existingSessions : List Session) (gen : Nat → String)
    (h : (["subject", "duration", "startTime", "completed"].filter
        fun c => !headers.contains c) ≠ []) :
    (validateCSVContent headers rows existingSessions gen).validRows = 0 ∧
    (validateCSVContent headers rows existingSessions gen).sampleData = [] ∧
    (validateCSVContent headers rows existingSessions gen).generatedIds = 0 ∧
    (validateCSVContent headers rows existingSessions gen).duplicates = [] ∧
    (validateCSVContent headers rows existingSessions gen).totalRows = rows.length ∧
    (validateCSVContent headers rows existingSessions gen).errors =
      (["subject", "duration", "startTime", "completed"].filter
        fun c => !headers.contains c).map
        fun col => { type := Severity.error, message := "Missing required column: " ++ col,
                     row := none, column := some col } := by
  have hmap := filterMap_missing_columns headers
    ["subject", "duration", "startTime", "completed"]
    fun col => { type := Severity.error, message := "Missing required column: " ++ col,
                 row := none, column := some col }
  have hne : (["subject", "duration", "startTime", "completed"].filterMap
      fun col => if headers.contains col then none
        else some ({ type := Severity.error, message := "Missing required column: " ++ col,
                     row := none, column := some col } : ValidationError)) ≠ [] := by
    rw [hmap]
    intro hmapnil
    exact h (List.map_eq_nil_iff.mp hmapnil)
  simp only [validateCSVContent]
  rw [if_neg hne]
  refine ⟨?_, ?_, ?_, ?_, ?_, ?_⟩ <;> trivial

/-- Witness for C6: a CSV missing the duration column: zero valid rows and
exactly one error referencing duration. -/
theorem C6_witness :
    (validateCSVContent ["subject", "startTime", "completed"]
      [{ id := none, subject := some "Math", duration := some "25",
          startTime := some "2024-01-01", endTime := none, completed := some "true" }]
      [] fun _ => "gid").validRows = 0 ∧
    (validateCSVContent ["subject", "startTime", "completed"]
      [{ id := none, subject := some "Math", duration := some "25",
          startTime := some "2024-01-01", endTime := none, completed := some "true" }]
      [] fun _ => "gid").sampleData = [] ∧
    (validateCSVContent ["subject", "startTime", "completed"]
      [{ id := none, subject := some "Math", duration := some "25",
          startTime := some "2024-01-01", endTime := none, completed := some "true" }]
      [] fun _ => "gid").generatedIds = 0 ∧
    (validateCSVContent ["subject", "startTime", "completed"]
      [{ id := none, subject := some "Math", duration := some "25",
          startTime := some "2024-01-01", endTime := none, completed := some "true" }]
      [] fun _ => "gid").duplicates = [] ∧
    (validateCSVContent ["subject", "startTime", "completed"]
      [{ id := none, subject := some "Math", duration := some "25",
          startTime := some "2024-01-01", endTime := none, completed := some "true" }]
      [] fun _ => "gid").totalRows = 1 ∧
    (validateCSVContent ["subject", "startTime", "completed"]
      [{ id := none, subject := some "Math", duration := some "25",
          startTime := some "2024-01-01", endTime := none, completed := some "true" }]
      [] fun _ => "gid").errors =
      [{ type := Severity.error, message := "Missing required column: duration",
         row := none, column := some "duration" }] := by
  exact C6_missing_required_columns ["subject", "startTime", "completed"]
    [{ id := none, subject := some "Math", duration := some "25",
        startTime := some "2024-01-01", endTime := none, completed := some "true" }]
    [] (fun _ => "gid") (by decide)

theorem length_filter_filter {α : Type} (p q : α → Bool) (l : List α) :
    ((l.filter p).filter q).length = l.countP fun a => p a && q a := by
  rw [List.filter_filter, ← List.countP_eq_length_filter]
  exact List.countP_congr fun x _ => by rw [Bool.and_comm]

/-- Claim C7: the rollups count exactly the completed sessions whose start
time is on or after local midnight, local midnight minus 7 days и minus 30
days respectively; non-completed sessions contribute to none of the three
counts; getSessionStats is the rollup of the loaded list; and the claim's
anchoring example (completed sessions today 09:00, 6 days ago and 40 days
ago, evaluated today 18:00) yields daily 1, weekly 2, monthly 2. -/
theorem C7_rollup_counts (sessions : List Session) (now tz : Int) :
    (sessionStatsOf sessions now tz).daily =
      sessions.countP (fun s => s.completed && startGE s (localMidnight now tz)) ∧
    (sessionStatsOf sessions now tz).weekly =
      sessions.countP (fun s => s.completed && startGE s (localMidnight now tz - 604800000)) ∧
    (sessionStatsOf sessions now tz).monthly =
      sessions.countP (fun s => s.completed && startGE s (localMidnight now tz - 2592000000)) ∧
    (∀ st : StorageState, getSessionStats st now tz =
      sessionStatsOf (loadSessions st now).sessions now tz) ∧
    sessionStatsOf
      [{ id := "a", subject := "A", duration := 25, startTime := some 1728032400000,
         endTime := none, completed := true },
       { id := "b", subject := "B", duration := 25, startTime := some 1727514000000,
         endTime := none, completed := true },
       { id := "c", subject := "C", duration := 25, startTime := some 1724576400000,
         endTime := none, completed := true }] 1728064800000 0 =
      { daily := 1, weekly := 2, monthly := 2 } := by
  refine ⟨?_, ?_, ?_, fun st => rfl, by decide⟩
  · exact length_filter_filter (fun s => s.completed) _ sessions
  · exact length_filter_filter (fun s => s.completed) _ sessions
  · exact length_filter_filter (fun s => s.completed) _ sessions

/-- Counterexample to claim C8 as stated: a record whose endTime equals
its startTime does receive the endTime-ordering warning - the source warns
whenever startTime.getTime() >= endTime.getTime(), equality included. -/
theorem C8_counterexample :
    eqTimesSession.endTime = some eqTimesSession.startTime ∧
    validateSession eqTimesSession none false =
      [{ type := Severity.warning, message := "End time should be after start time",
         row := none, column := some "endTime" }] := by
  exact ⟨rfl, by decide⟩

/-- Elements of the id, subject, duration and startTime checks are all
error-severity and never reference the endTime column. -/
theorem other_blocks_spec (s : Session) (p : String) (r : Option Nat) (aid : Bool) :
    ∀ e, (e ∈ idIssues s p r aid ∨ e ∈ subjectIssues s p r ∨
        e ∈ durationIssues s p r ∨ e ∈ startIssues s p r) →
      e.type = Severity.error ∧ e.column ≠ some "endTime" := by
  intro e he
  rcases he with h | h | h | h
  · unfold idIssues at h
    split_ifs at h <;> simp_all
  · unfold subjectIssues at h
    split_ifs at h <;> simp_all
  · unfold durationIssues at h
    split_ifs at h <;> simp_all
  · unfold startIssues at h
    split_ifs at h <;> simp_all

/-- Claim C8 (amended): for a record with a valid startTime and a present,
valid endTime, validation emits the endTime-ordering issue exactly when
endTime ≤ startTime - equal timestamps included - and that issue always
has warning severity; it never affects acceptability for persistence: the
error-severity issues are exactly those of the same record without an
endTime. -/
theorem C8_endTime_ordering (s : Session) (r : Option Nat) (aid : Bool) (st et : Int)
    (h1 : s.startTime = some st) (h2 : s.endTime = some (some et)) :
    (({ type := Severity.warning,
        message := rowPre r ++ "End time should be after start time",
        row := r, column := some "endTime" } : ValidationError) ∈ validateSession s r aid ↔
      et ≤ st) ∧
    (∀ e ∈ validateSession s r aid, e.column = some "endTime" →
      e.type = Severity.warning) ∧
    (validateSession s r aid).filter ValidationError.isError =
      (validateSession { s with endTime := none } r aid).filter ValidationError.isError := by
  have hE : endIssues s (rowPre r) r =
      if et ≤ st then
        [{ type := Severity.warning,
           message := rowPre r ++ "End time should be after start time",
           row := r, column := some "endTime" }]
      else [] := by
    unfold endIssues
    rw [h2, h1]
  refine ⟨?_, ?_, ?_⟩
  · constructor
    · intro hw
      simp only [validateSession, List.mem_append] at hw
      rcases hw with (((hA | hB) | hC) | hD) | hEm
      · exact absurd (other_blocks_spec s (rowPre r) r aid _ (Or.inl hA)).1 (by simp)
      · exact absurd (other_blocks_spec s (rowPre r) r aid _
          (Or.inr (Or.inl hB))).1 (by simp)
      · exact absurd (other_blocks_spec s (rowPre r) r aid _
          (Or.inr (Or.inr (Or.inl hC)))).1 (by simp)
      · exact absurd (other_blocks_spec s (rowPre r) r aid _
          (Or.inr (Or.inr (Or.inr hD)))).1 (by simp)
      · rw [hE] at hEm
        by_cases hle : et ≤ st
        · exact hle
        · rw [if_neg hle] at hEm
          simp at hEm
    · intro hle
      simp only [validateSession, List.mem_append]
      refine Or.inr ?_
      rw [hE, if_pos hle]
      exact List.mem_singleton.mpr rfl
  · intro e he hcol
    simp only [validateSession, List.mem_append] at he
    rcases he with (((hA | hB) | hC) | hD) | hEm
    · exact absurd hcol (other_blocks_spec s (rowPre r) r aid _ (Or.inl hA)).2
    · exact absurd hcol (other_blocks_spec s (rowPre r) r aid _ (Or.inr (Or.inl hB))).2
    · exact absurd hcol (other_blocks_spec s (rowPre r) r aid _
        (Or.inr (Or.inr (Or.inl hC)))).2
    · exact absurd hcol (other_blocks_spec s (rowPre r) r aid _
        (Or.inr (Or.inr (Or.inr hD)))).2
    · rw [hE] at hEm
      by_cases hle : et ≤ st
      · rw [if_pos hle] at hEm
        rw [List.mem_singleton.mp hEm]
      · rw [if_neg hle] at hEm
        simp at hEm
  · have hE0 : (endIssues s (rowPre r) r).filter ValidationError.isError = [] :=
      (filter_endIssues s (rowPre r) r).mpr (by rw [h2]; simp)
    have hE1 : (endIssues { s with endTime := none } (rowPre r) r).filter
        ValidationError.isError = [] :=
      (filter_endIssues { s with endTime := none } (rowPre r) r).mpr (by simp)
    simp only [validateSession, List.filter_append, hE0, hE1]
    rfl

/-- Witness for the amended C8: the equal-timestamps record receives the
warning (0 ≤ 0) and its error-severity issues match those of the record
without an endTime. -/
theorem C8_witness :
    (({ type := Severity.warning,
        message := rowPre none ++ "End time should be after start time",
        row := none, column := some "endTime" } : ValidationError) ∈
      validateSession eqTimesSession none false ↔ (0 : Int) ≤ 0) ∧
    (∀ e ∈ validateSession eqTimesSession none false, e.column = some "endTime" →
      e.type = Severity.warning) ∧
    (validateSession eqTimesSession none false).filter ValidationError.isError =
      (validateSession { eqTimesSession with endTime := none } none false).filter
        ValidationError.isError :=
  C8_endTime_ordering eqTimesSession none false 0 0 rfl rfl

end LearningTimer
